import Mathlib

/-!
Verification of the OMPL console logging facility
(`src/ompl/util/src/Console.cpp`).

The file embeds the logging router and the two output handlers as pure
Lean definitions.  Side effects (handler calls, file writes, stderr
diagnostics) are modelled as lists of emitted events; the process-wide
mutable state guarded by the mutex is modelled as an explicit state
record threaded through the operations.
-/

namespace ompl.msg

/-- Modelled from the spec: the `LogLevel` enumeration is declared in
`ompl/util/Console.h`, which is not part of the provided sources.  The
spec describes it as the ordered enumeration DEBUG < INFO < WARN < ERROR
< NONE; as a C++ enum its values are machine integers, and the level
gate in `log` compares those integers.  We therefore model a level as an
`Int` and the five enumerators as the consecutive values 0..4, so that
out-of-enumeration values (reachable in C++ by casting) are
representable. -/
def DEBUG : Int := 0

/-- Modelled from the spec: second enumerator of `LogLevel`. -/
def INFO : Int := 1

/-- Modelled from the spec: third enumerator of `LogLevel`. -/
def WARN : Int := 2

/-- Modelled from the spec: fourth enumerator of `LogLevel`. -/
def ERROR : Int := 3

/-- Modelled from the spec: the sentinel enumerator of `LogLevel`,
largest in the order, "never matches" as a dispatch target. -/
def NONE : Int := 4

/-- The four sink methods of the `OutputHandler` contract. -/
inductive SinkMethod : Type where
  | error : SinkMethod
  | warn : SinkMethod
  | inform : SinkMethod
  | debug : SinkMethod
deriving DecidableEq, Repr

/-- The mutable state held by `DefaultOutputHandler` (Console.cpp,
lines 46-62), minus the mutex, which only serializes access and plays no
role in the sequential semantics.  `H` is the type of handler
identities; a C++ `OutputHandler*` is `Option H`, with `none` for the
NULL pointer. -/
structure RouterState (H : Type) : Type where
  output_handler_ : Option H
  previous_output_handler_ : Option H
  logLevel_ : Int
  showLineNumbers_ : Bool
deriving DecidableEq, Repr

/-- The initial state established by the `DefaultOutputHandler`
constructor (lines 48-54): both handler slots point at the built-in
console handler, level is DEBUG, line numbers off.  `console` stands for
the address of the embedded `std_output_handler_` member. -/
def initialState {H : Type} (console : H) : RouterState H :=
  { output_handler_ := some console
    previous_output_handler_ := some console
    logLevel_ := DEBUG
    showLineNumbers_ := false }

/-- `ompl::msg::noOutputHandler` (lines 82-87): remember the current
handler as previous, then set current to NULL. -/
def noOutputHandler {H : Type} (s : RouterState H) : RouterState H :=
  { s with
    previous_output_handler_ := s.output_handler_
    output_handler_ := none }

/-- `ompl::msg::restorePreviousOutputHandler` (lines 89-93):
`std::swap` of the previous and current handler pointers. -/
def restorePreviousOutputHandler {H : Type} (s : RouterState H) :
    RouterState H :=
  { s with
    previous_output_handler_ := s.output_handler_
    output_handler_ := s.previous_output_handler_ }

/-- `ompl::msg::useOutputHandler` (lines 95-100): remember the current
handler as previous, then install `oh` (which may be NULL). -/
def useOutputHandler {H : Type} (s : RouterState H) (oh : Option H) :
    RouterState H :=
  { s with
    previous_output_handler_ := s.output_handler_
    output_handler_ := oh }

/-- `ompl::msg::setLogLevel` (lines 150-154). -/
def setLogLevel {H : Type} (s : RouterState H) (level : Int) :
    RouterState H :=
  { s with logLevel_ := level }

/-- `ompl::msg::showLineNumbers` (lines 162-166). -/
def showLineNumbers {H : Type} (s : RouterState H) (show_ : Bool) :
    RouterState H :=
  { s with showLineNumbers_ := show_ }

/-- `MAX_BUFFER_SIZE` (line 78). -/
def MAX_BUFFER_SIZE : Nat := 1024

/-- Model of `vsnprintf(buf, sizeof(buf), m, ap)` followed by
`buf[MAX_BUFFER_SIZE - 1] = 0` (lines 114-117): `m` stands for the
already-formatted variadic message, and the call stores at most
`MAX_BUFFER_SIZE - 1` of its characters into `buf`, always terminating
the buffer.  The resulting C string is the message truncated to 1023
characters. -/
def vsnprintfTrunc (m : String) : String :=
  ⟨m.data.take (MAX_BUFFER_SIZE - 1)⟩

/-- Model of `boost::filesystem::path(file).filename().string()`
(line 121): the final path component, i.e. everything after the last
directory separator. -/
def pathFilename (file : String) : String :=
  ⟨(file.data.reverse.takeWhile (fun c => c != '/')).reverse⟩

/-- The switch statement of `log` (lines 124-146): ERROR, WARN, INFO
and DEBUG go to the matching sink method; NONE falls through to the
default case, which calls `error`. -/
def dispatchMethod (level : Int) : SinkMethod :=
  if level = ERROR then SinkMethod.error
  else if level = WARN then SinkMethod.warn
  else if level = INFO then SinkMethod.inform
  else if level = DEBUG then SinkMethod.debug
  else SinkMethod.error

/-- `ompl::msg::log` (lines 107-148).  Returns the list of handler
invocations the call performs: each element names the handler object, the
sink method called on it, and the text argument.  The empty list means
the call returned without formatting anything (the guard on line 110
fails).  The text is the truncated formatted buffer, preceded by the
"line N in file: " annotation when `showLineNumbers_` is set
(lines 119-122). -/
def log {H : Type} (s : RouterState H) (file : String) (line : Int)
    (level : Int) (m : String) : List (H × SinkMethod × String) :=
  match s.output_handler_ with
  | none => []
  | some h =>
    if s.logLevel_ ≤ level then
      let buf := vsnprintfTrunc m
      let text :=
        (if s.showLineNumbers_ then
          "line " ++ toString line ++ " in " ++ pathFilename file ++ ": "
        else "") ++ buf
      [(h, dispatchMethod level, text)]
    else []

/-- `ompl::msg::OutputHandlerFile` (lines 192-240): holds the `FILE*`
obtained from `fopen` at construction, `none` when the open failed.  `F`
is the type of file handles. -/
structure OutputHandlerFile (F : Type) : Type where
  file_ : Option F
deriving DecidableEq, Repr

namespace OutputHandlerFile

/-- The `OutputHandlerFile` constructor (lines 192-197).  `fopenResult`
stands for the outcome of `fopen(filename, "a")`.  Returns the
constructed handler together with the lines written to `std::cerr`: one
diagnostic naming the path when the open failed, nothing otherwise.  The
constructor never throws; it always returns a handler. -/
def construct {F : Type} (fname : String) (fopenResult : Option F) :
    OutputHandlerFile F × List String :=
  (⟨fopenResult⟩,
    match fopenResult with
    | none => ["Unable to open log file: \x27" ++ fname ++ "\x27"]
    | some _ => [])

/-- `OutputHandlerFile::error` (lines 206-213): the list of
writes performed on the file, empty when `file_` is NULL. -/
def error {F : Type} (oh : OutputHandlerFile F) (text : String) :
    List (F × String) :=
  match oh.file_ with
  | none => []
  | some f => [(f, "Error:   " ++ text ++ "\n")]

/-- `OutputHandlerFile::warn` (lines 215-222). -/
def warn {F : Type} (oh : OutputHandlerFile F) (text : String) :
    List (F × String) :=
  match oh.file_ with
  | none => []
  | some f => [(f, "Warning: " ++ text ++ "\n")]

/-- `OutputHandlerFile::inform` (lines 224-231). -/
def inform {F : Type} (oh : OutputHandlerFile F) (text : String) :
    List (F × String) :=
  match oh.file_ with
  | none => []
  | some f => [(f, "Info:    " ++ text ++ "\n")]

/-- `OutputHandlerFile::debug` (lines 233-240). -/
def debug {F : Type} (oh : OutputHandlerFile F) (text : String) :
    List (F × String) :=
  match oh.file_ with
  | none => []
  | some f => [(f, "Debug:   " ++ text ++ "\n")]

end OutputHandlerFile

end ompl.msg

namespace ompl.msg

/-- C1: with a handler installed and `level` at or above the configured
minimum, `log` performs exactly one handler invocation, on the sink
method matching the level (DEBUG→debug, INFO→inform, WARN→warn,
ERROR→error); with no handler installed, or `level` strictly below the
minimum, `log` performs no dispatch and no formatting (the event list is
empty: the guard on line 110 fails before the buffer is built). -/
theorem log_gate_and_dispatch {H : Type} (s : RouterState H) (h : H)
    (file : String) (line : Int) (level : Int) (m : String) :
    (s.output_handler_ = some h → s.logLevel_ ≤ level →
      ∃ t, log s file line level m = [(h, dispatchMethod level, t)]) ∧
    ((s.output_handler_ = none ∨ level < s.logLevel_) →
      log s file line level m = []) ∧
    dispatchMethod DEBUG = SinkMethod.debug ∧
    dispatchMethod INFO = SinkMethod.inform ∧
    dispatchMethod WARN = SinkMethod.warn ∧
    dispatchMethod ERROR = SinkMethod.error := by
  refine ⟨?_, ?_, by decide, by decide, by decide, by decide⟩
  · intro hh hle
    refine ⟨(if s.showLineNumbers_ then
        "line " ++ toString line ++ " in " ++ pathFilename file ++ ": "
      else "") ++ vsnprintfTrunc m, ?_⟩
    simp [log, hh, hle]
  · rintro (hn | hlt)
    · simp [log, hn]
    · cases hoh : s.output_handler_ with
      | none => simp [log, hoh]
      | some h2 => simp [log, hoh, not_le.mpr hlt]

/-- Witness for C1: in the initial state (handler installed, minimum
DEBUG) an INFO message is dispatched once to `inform`, and after
`noOutputHandler` the same call dispatches nothing. -/
theorem log_gate_and_dispatch_witness :
    (∃ t, log (initialState 0) "a.cpp" 1 INFO "hi" =
      [((0 : Nat), SinkMethod.inform, t)]) ∧
    log (noOutputHandler (initialState (0 : Nat))) "a.cpp" 1 INFO "hi" = [] := by
  constructor
  · exact (log_gate_and_dispatch (initialState 0) 0 "a.cpp" 1 INFO "hi").1
      rfl (by decide)
  · exact (log_gate_and_dispatch (noOutputHandler (initialState 0)) 0
      "a.cpp" 1 INFO "hi").2.1 (Or.inl rfl)

/-- C2: `noOutputHandler` followed by `restorePreviousOutputHandler`
reinstalls exactly the handler that was current before the disable. -/
theorem disable_then_restore {H : Type} (s : RouterState H) :
    (restorePreviousOutputHandler (noOutputHandler s)).output_handler_ =
      s.output_handler_ :=
  rfl

/-- C3: `restorePreviousOutputHandler` is an involution on the whole
router state: the current/previous swap is its own inverse. -/
theorem restore_involutive {H : Type} (s : RouterState H) :
    restorePreviousOutputHandler (restorePreviousOutputHandler s) = s :=
  rfl

/-- C4: installing a NULL handler via `useOutputHandler` yields exactly
the state produced by `noOutputHandler`. -/
theorem useHandler_null_eq_disable {H : Type} (s : RouterState H) :
    useOutputHandler s none = noOutputHandler s :=
  rfl

/-- C5: the modelled `vsnprintf` call stores at most
`MAX_BUFFER_SIZE - 1` characters, the stored text is an initial segment
of the full formatted message (silent truncation, terminator always in
place, never reading past the buffer), and a message that fits is stored
unchanged. -/
theorem vsnprintf_truncates (m : String) :
    (vsnprintfTrunc m).length ≤ MAX_BUFFER_SIZE - 1 ∧
    (∃ r, m.data = (vsnprintfTrunc m).data ++ r) ∧
    (m.length ≤ MAX_BUFFER_SIZE - 1 → vsnprintfTrunc m = m) := by
  refine ⟨?_, ⟨m.data.drop (MAX_BUFFER_SIZE - 1), ?_⟩, ?_⟩
  · have h1 : (vsnprintfTrunc m).length =
        min (MAX_BUFFER_SIZE - 1) m.data.length :=
      List.length_take _ _
    omega
  · simp [vsnprintfTrunc]
  · intro hle
    have : m.data.take (MAX_BUFFER_SIZE - 1) = m.data :=
      List.take_of_length_le hle
    simp [vsnprintfTrunc, this]

/-- Witness for C5: a three-character message fits the buffer and is
stored unchanged. -/
theorem vsnprintf_truncates_witness :
    String.length "abc" ≤ MAX_BUFFER_SIZE - 1 ∧ vsnprintfTrunc "abc" = "abc" :=
  ⟨by decide, (vsnprintf_truncates "abc").2.2 (by decide)⟩

/-- C6: on a dispatched call, when `showLineNumbers_` is set the handler
receives the text `"line <N> in <basename>: "` followed by the formatted
buffer, where `<basename>` is the file path reduced to its final path
component; when the flag is clear the handler receives the formatted
buffer alone, with no prefix prepended. -/
theorem log_line_annot {H : Type} (s : RouterState H) (h : H)
    (file : String) (line : Int) (level : Int) (m : String)
    (hh : s.output_handler_ = some h) (hle : s.logLevel_ ≤ level) :
    (s.showLineNumbers_ = true →
      log s file line level m =
        [(h, dispatchMethod level,
          "line " ++ toString line ++ " in " ++ pathFilename file ++ ": " ++
            vsnprintfTrunc m)]) ∧
    (s.showLineNumbers_ = false →
      log s file line level m =
        [(h, dispatchMethod level, vsnprintfTrunc m)]) := by
  constructor
  · intro hln
    simp [log, hh, hle, hln, String.append_assoc]
  · intro hln
    simp [log, hh, hle, hln]

/-- Witness for C6: with line numbers on, a WARN call from line 12 of
"/a/b/c.cpp" is dispatched as `warn` with the prefixed text; with them
off, the same call carries the bare message. -/
theorem log_line_annot_witness :
    log (showLineNumbers (initialState (0 : Nat)) true) "/a/b/c.cpp" 12
        WARN "msg" = [(0, SinkMethod.warn, "line 12 in c.cpp: msg")] ∧
    log (initialState (0 : Nat)) "/a/b/c.cpp" 12 WARN "msg" =
      [(0, SinkMethod.warn, "msg")] := by
  have h1 := (log_line_annot (showLineNumbers (initialState (0 : Nat)) true)
    0 "/a/b/c.cpp" 12 WARN "msg" rfl (by decide)).1 rfl
  have h2 := (log_line_annot (initialState (0 : Nat))
    0 "/a/b/c.cpp" 12 WARN "msg" rfl (by decide)).2 rfl
  refine ⟨?_, ?_⟩
  · rw [h1]; rfl
  · rw [h2]; rfl

/-- C7: a call whose level is the sentinel NONE, or any integer outside
the recognized enumerators, that passes the handler and level-gate
checks is dispatched to the handler's `error` method (the switch falls
through to the default case); the call still returns normally, surfacing
no error to the caller. -/
theorem log_invalid_level_error {H : Type} (s : RouterState H) (h : H)
    (file : String) (line : Int) (level : Int) (m : String)
    (hh : s.output_handler_ = some h) (hle : s.logLevel_ ≤ level)
    (hnv : level ≠ DEBUG ∧ level ≠ INFO ∧ level ≠ WARN ∧ level ≠ ERROR) :
    ∃ t, log s file line level m = [(h, SinkMethod.error, t)] := by
  obtain ⟨h0, h1, h2, h3⟩ := hnv
  refine ⟨(if s.showLineNumbers_ then
      "line " ++ toString line ++ " in " ++ pathFilename file ++ ": "
    else "") ++ vsnprintfTrunc m, ?_⟩
  simp [log, hh, hle, dispatchMethod, h0, h1, h2, h3]

/-- Witness for C7: a NONE-level call in the initial state dispatches to
`error`. -/
theorem log_invalid_level_error_witness :
    (0 : Int) ≤ NONE ∧
    ∃ t, log (initialState (0 : Nat)) "a.cpp" 1 NONE "hi" =
      [(0, SinkMethod.error, t)] :=
  ⟨by decide,
    log_invalid_level_error (initialState 0) 0 "a.cpp" 1 NONE "hi" rfl
      (by decide) (by refine ⟨?_, ?_, ?_, ?_⟩ <;> decide)⟩

/-- C8: when `fopen` fails at construction, `OutputHandlerFile` emits
exactly one stderr diagnostic naming the failed path, constructs
normally (no throw), and the resulting handler performs no file write on
any of its four sink methods. -/
theorem fileHandler_open_failure (F : Type) (fname text : String) :
    (OutputHandlerFile.construct fname (none : Option F)).2 =
      ["Unable to open log file: \x27" ++ fname ++ "\x27"] ∧
    OutputHandlerFile.error
      (OutputHandlerFile.construct fname (none : Option F)).1 text = [] ∧
    OutputHandlerFile.warn
      (OutputHandlerFile.construct fname (none : Option F)).1 text = [] ∧
    OutputHandlerFile.inform
      (OutputHandlerFile.construct fname (none : Option F)).1 text = [] ∧
    OutputHandlerFile.debug
      (OutputHandlerFile.construct fname (none : Option F)).1 text = [] :=
  ⟨rfl, rfl, rfl, rfl, rfl⟩

/-- C9: after `setLogLevel NONE`, a call at any of the four legitimate
levels performs no dispatch and no formatting, while a call at level
NONE itself passes the gate and is dispatched to the handler's `error`
method. -/
theorem setLevel_none_gate {H : Type} (s : RouterState H) (h : H)
    (file : String) (line : Int) (m : String)
    (hh : s.output_handler_ = some h) :
    (∀ level : Int,
      level = DEBUG ∨ level = INFO ∨ level = WARN ∨ level = ERROR →
      log (setLogLevel s NONE) file line level m = []) ∧
    ∃ t, log (setLogLevel s NONE) file line NONE m =
      [(h, SinkMethod.error, t)] := by
  constructor
  · rintro level (rfl | rfl | rfl | rfl) <;>
      simp [log, setLogLevel, hh, DEBUG, INFO, WARN, ERROR, NONE]
  · refine ⟨(if s.showLineNumbers_ then
        "line " ++ toString line ++ " in " ++ pathFilename file ++ ": "
      else "") ++ vsnprintfTrunc m, ?_⟩
    simp [log, setLogLevel, hh, dispatchMethod, DEBUG, INFO, WARN, ERROR, NONE]

/-- Witness for C9: starting from the initial state with level set to
NONE, an ERROR call is dropped and a NONE call reaches `error`. -/
theorem setLevel_none_gate_witness :
    log (setLogLevel (initialState (0 : Nat)) NONE) "a.cpp" 1 ERROR "hi" = [] ∧
    ∃ t, log (setLogLevel (initialState (0 : Nat)) NONE) "a.cpp" 1 NONE "hi" =
      [(0, SinkMethod.error, t)] := by
  have hmain := setLevel_none_gate (initialState (0 : Nat)) 0 "a.cpp" 1 "hi" rfl
  exact ⟨hmain.1 ERROR (Or.inr (Or.inr (Or.inr rfl))), hmain.2⟩

/-- C10: in the freshly constructed router state both handler slots hold
the built-in console handler, so `restorePreviousOutputHandler` applied
first leaves the state unchanged: the installed handler is still present
(not NULL) and an INFO message still reaches the console handler. -/
theorem initial_state_restore {H : Type} (console : H) (file : String)
    (line : Int) (m : String) :
    (initialState console).output_handler_ = some console ∧
    (initialState console).previous_output_handler_ = some console ∧
    restorePreviousOutputHandler (initialState console) =
      initialState console ∧
    (restorePreviousOutputHandler
      (initialState console)).output_handler_.isSome = true ∧
    ∃ t, log (restorePreviousOutputHandler (initialState console)) file line
      INFO m = [(console, SinkMethod.inform, t)] := by
  refine ⟨rfl, rfl, rfl, rfl, ?_⟩
  refine ⟨"" ++ vsnprintfTrunc m, ?_⟩
  simp [log, restorePreviousOutputHandler, initialState, dispatchMethod,
    DEBUG, INFO, WARN, ERROR]

end ompl.msg
